import Mathlib

/-!
# A shallow embedding of the pylox semantic core

This file embeds, in Lean, the semantic-analysis and evaluation engine of
the pylox tree-walking interpreter: the runtime value model, the
environment chain, the resolver's scope bookkeeping, and a fuel-based
evaluator for the statement/expression AST, each definition translated
from the Python source file and lines named in its doc comment.

Modelling conventions:
* Python floats are modelled as exact rationals (`ℚ`); every number this
  development evaluates is integral, where the two agree.
* Python `dict` is modelled as an insertion-ordered association list:
  an update keeps the key's position, a new key is appended.
* Mutable, reference-shared objects (environment frames, function
  objects, class objects, instances) live in per-kind heaps inside the
  interpreter state `St`; a reference is an index into its heap.
* Exceptions are modelled by the result type `Res`: `LoxBreak` and
  `LoxReturn` (the non-local control channels), `LoxRuntimeError`
  (message only; the carried token is pure diagnostics), and `fatal` for
  an uncaught Python-level exception (TypeError, AttributeError,
  KeyError, IndexError), which pylox never catches.
* Recursion through `while` and calls is bounded by fuel; exhausted fuel
  yields the verdict-free result `spin` (and `none` in the resolver),
  never a value.
* The lexer, the parser and the native builtin catalog are outside the
  embedded core, as the spec scopes them; `PyLox.run` is embedded from
  the parse products onward.
-/

/-- A pylox runtime value. `uninit` is the module-level `UNINITIALIZED`
sentinel object of src/pylox/environment.py:11; `fn`, `klass` and `inst`
are references (heap indices) to a LoxFunction, LoxClass or LoxInstance,
compared by identity exactly as CPython compares these objects. -/
inductive Val where
  | nil
  | bool (b : Bool)
  | num (q : ℚ)
  | str (s : String)
  | fn (id : Nat)
  | klass (id : Nat)
  | inst (id : Nat)
  | uninit
deriving DecidableEq, Repr

/-- Look a key up in an association list (Python `d[k]` / `k in d`):
first match wins, as keys are unique by construction. -/
def aget {α : Type} (d : List (String × α)) (k : String) : Option α :=
  match d with
  | [] => none
  | (k1, v) :: rest => if k1 = k then some v else aget rest k

/-- Python `d[k] = v` on an insertion-ordered dict: an existing key keeps
its position and gets the new value, a new key is appended. -/
def aset {α : Type} (d : List (String × α)) (k : String) (v : α) : List (String × α) :=
  match d with
  | [] => [(k, v)]
  | (k1, v1) :: rest => if k1 = k then (k1, v) :: rest else (k1, v1) :: aset rest k v

/-- `local_definitions.get(id(node))` (interpreter.py:102): the binding
table keyed by node identity; a later `resolve` for the same node
overwrites, so the last entry wins. -/
def lget (d : List (Nat × Nat × Nat)) (k : Nat) : Option (Nat × Nat) :=
  match d with
  | [] => none
  | (k1, a, b) :: rest =>
      match lget rest k with
      | some p => some p
      | none => if k1 = k then some (a, b) else none

/-- Binary operator tokens of the embedded expression language. -/
inductive BinOp where
  | eqeq | bangeq | gt | ge | lt | le | plus | minus | star | slash
deriving DecidableEq, Repr

/-- Unary operator tokens. -/
inductive UnOp where
  | neg | bang
deriving DecidableEq, Repr

/-- Logical operator tokens (short-circuiting). -/
inductive LogOp where
  | orOp | andOp
deriving DecidableEq, Repr

mutual
/-- Expression nodes (src/pylox/expr.py). `Variable` and `Assign` carry a
`nodeId`, the embedding of CPython's `id(node)` used as binding-table
key; the class-syntax nodes (Get/Set/This/Super) are outside the embedded
fragment, whose claims about the object model are settled directly on the
runtime object operations below. -/
inductive Expr where
  | lit (v : Val)
  | grouping (e : Expr)
  | unary (op : UnOp) (e : Expr)
  | binary (op : BinOp) (l r : Expr)
  | logical (op : LogOp) (l r : Expr)
  | ternery (c t e : Expr)
  | variable (nodeId : Nat) (name : String)
  | assign (nodeId : Nat) (name : String) (value : Expr)
  | call (callee : Expr) (args : List Expr)
  | funlit (params : List String) (body : List Stmt)

/-- Statement nodes (src/pylox/stmt.py). -/
inductive Stmt where
  | expression (e : Expr)
  | print (e : Expr)
  | var (name : String) (init : Option Expr)
  | block (stmts : List Stmt)
  | ifS (c : Expr) (t : Stmt) (e : Option Stmt)
  | whileS (c : Expr) (b : Stmt)
  | breakS
  | returnS (v : Option Expr)
  | fundef (name : String) (params : List String) (body : List Stmt)
end

/-- An Environment object (environment.py:14-21): the `values` dict and
the `enclosing` reference (a frame index, `none` for no parent). -/
structure Frame where
  values : List (String × Val)
  enclosing : Option Nat
deriving Repr

/-- A LoxFunction object (callable.py:29-45): display name, declaration
(parameter list and body), captured closure frame, initializer flag. -/
structure FnObj where
  fname : Option String
  params : List String
  body : List Stmt
  closure : Option Nat
  isInit : Bool

/-- A LoxClass object (loxclass.py:39-67): name, superclass references in
declared order, method and static-method tables (function references),
and the cached initializer (`methods["init"]` when present). -/
structure ClassObj where
  cname : String
  superclasses : List Nat
  methods : List (String × Nat)
  statics : List (String × Nat)
  initializer : Option Nat

/-- A LoxInstance object (loxclass.py:11-17): owning class reference and
the mutable field table. -/
structure InstObj where
  klass : Nat
  fields : List (String × Val)
deriving Repr

/-- The interpreter's mutable state: the heaps of shared objects, the
global table (interpreter.py:20-31; the native builtins it preloads are
outside the embedded core), the current frame `env`
(`Interpreter.environment`, `none` at top level), the binding table
`local_definitions`, and the text printed so far. -/
structure St where
  frames : List Frame
  globals : List (String × Val)
  env : Option Nat
  funs : List FnObj
  classes : List ClassObj
  insts : List InstObj
  locals : List (Nat × Nat × Nat)
  output : List String

/-- The outcome of evaluating a piece of code, threading the state:
normal value, the `LoxBreak` / `LoxReturn` control signals, a
`LoxRuntimeError` (its message), an uncaught Python-level exception
(`fatal`), or exhausted fuel (`spin`, no verdict). -/
inductive Res (α : Type) where
  | ok (a : α) (st : St)
  | brk (st : St)
  | ret (v : Val) (st : St)
  | err (msg : String) (st : St)
  | fatal (msg : String) (st : St)
  | spin

/-- Sequencing with Python exception semantics: only a normal result
continues, every raised signal propagates unchanged. -/
def Res.andThen {α β : Type} (r : Res α) (k : α → St → Res β) : Res β :=
  match r with
  | .ok a st => k a st
  | .brk st => .brk st
  | .ret v st => .ret v st
  | .err m st => .err m st
  | .fatal m st => .fatal m st
  | .spin => .spin

/-- The state carried by a result, if any (`spin` has none). -/
def resultState {α : Type} : Res α → Option St
  | .ok _ st => some st
  | .brk st => some st
  | .ret _ st => some st
  | .err _ st => some st
  | .fatal _ st => some st
  | .spin => none

/-- Whether a result is the `LoxBreak` signal. -/
def isBrk {α : Type} : Res α → Bool
  | .brk _ => true
  | _ => false

/-- Truthiness (interpreter.py:141-144): only `nil` (None) and the
boolean false are falsy. -/
def truthy : Val → Bool
  | .nil => false
  | .bool b => b
  | _ => true

/-- Python `==` on the pylox value universe, as used by
`Interpreter.__is_equal` (interpreter.py:146-147): value equality for
like types, identity for heap objects, and CPython's numeric equality
across bool and float (True == 1.0); no other cross-type pair is equal. -/
def pyEq : Val → Val → Bool
  | .nil, .nil => true
  | .bool a, .bool b => a == b
  | .bool a, .num q => (if a then (1 : ℚ) else 0) == q
  | .num q, .bool a => q == (if a then (1 : ℚ) else 0)
  | .num a, .num b => a == b
  | .str a, .str b => a == b
  | .fn a, .fn b => a == b
  | .klass a, .klass b => a == b
  | .inst a, .inst b => a == b
  | .uninit, .uninit => true
  | _, _ => false

/-- Models CPython `str()` on a float. Numbers are modelled as exact
rationals; the rendering is exact for integral values, the only ones
this development prints or concatenates. -/
def pyFloatStr (q : ℚ) : String :=
  if q.den = 1 then toString q.num ++ ".0"
  else toString q.num ++ "/" ++ toString q.den

/-- `Interpreter.stringify` (interpreter.py:123-126): None prints as
"nil", everything else as Python `str()` of the value (so booleans print
"True"/"False", and the callable objects use their `__str__`). -/
def stringify (st : St) : Val → String
  | .nil => "nil"
  | .bool b => if b then "True" else "False"
  | .num q => pyFloatStr q
  | .str s => s
  | .fn fid =>
      match st.funs.get? fid with
      | some fo =>
          match fo.fname with
          | some n => "<fun " ++ n ++ ">"
          | none => "<fun>"
      | none => "<fun>"
  | .klass cid =>
      match st.classes.get? cid with
      | some co => "<class " ++ co.cname ++ ">"
      | none => "<class>"
  | .inst iid =>
      match st.insts.get? iid with
      | some io =>
          match st.classes.get? io.klass with
          | some co => "<instance " ++ co.cname ++ ">"
          | none => "<instance>"
      | none => "<instance>"
  | .uninit => "<uninitialized>"

/-! ## The Environment of src/pylox/environment.py -/

/-- `Environment.define` (environment.py:23-25):
`self.values[name.lexeme] = value`. The `name` parameter is typed Token
but two callers (LoxFunction.bind, callable.py:74, and visit_class_stmt,
interpreter.py:410) pass None, on which the attribute access
`name.lexeme` raises AttributeError; hence the Option. -/
def envDefine (st : St) (eid : Nat) (name : Option String) (v : Val) : Res Unit :=
  match name with
  | none => .fatal "AttributeError: 'NoneType' object has no attribute 'lexeme'" st
  | some nm =>
      match st.frames.get? eid with
      | none => .fatal "internal: dangling frame reference" st
      | some fr =>
          .ok () { st with frames := st.frames.set eid { fr with values := aset fr.values nm v } }

/-- `Environment.ancestor` (environment.py:49-60): walk `distance`
enclosing links; a missing link raises the LoxRuntimeError
"This should not happen!! (inside Environment)". -/
def ancestorWalk (st : St) (eid : Nat) : Nat → Res Nat
  | 0 => .ok eid st
  | d + 1 =>
      match st.frames.get? eid with
      | none => .fatal "internal: dangling frame reference" st
      | some fr =>
          match fr.enclosing with
          | none => .err "This should not happen!! (inside Environment)" st
          | some p => ancestorWalk st p d

/-- The body of `Environment.get_at` (environment.py:46-47):
`self.ancestor(distance).values[name]` — a name miss in the ancestor
frame is a Python KeyError, not a LoxRuntimeError. -/
def getAtBody (st : St) (eid : Nat) (distance : Nat) (name : String) : Res Val :=
  (ancestorWalk st eid distance).andThen fun aid st1 =>
    match st1.frames.get? aid with
    | none => .fatal "internal: dangling frame reference" st1
    | some fr =>
        match aget fr.values name with
        | some v => .ok v st1
        | none => .fatal ("KeyError: '" ++ name ++ "'") st1

/-- A positional argument in a CPython call of an Environment method. -/
inductive PyArg where
  | intA (n : Nat)
  | strA (s : String)
  | valA (v : Val)
deriving DecidableEq, Repr

/-- A CPython call of the bound method `Environment.get_at`
(environment.py:46), whose parameter list is `(self, distance, name)`:
a positional call with any other argument count raises TypeError before
the body runs. -/
def getAtCall (st : St) (eid : Nat) (args : List PyArg) : Res Val :=
  if args.length = 2 then
    match args with
    | [.intA d, .strA nm] => getAtBody st eid d nm
    | _ => .fatal "TypeError: bad argument type for get_at" st
  else
    .fatal ("TypeError: get_at() takes 3 positional arguments but "
            ++ toString (args.length + 1) ++ " were given") st

/-- The body of `Environment.assign_at` (environment.py:79-80):
`self.ancestor(distance).values[name.lexeme] = value` (dict assignment
creates the key if missing). -/
def assignAtBody (st : St) (eid : Nat) (distance : Nat) (name : String) (v : Val) : Res Unit :=
  (ancestorWalk st eid distance).andThen fun aid st1 =>
    match st1.frames.get? aid with
    | none => .fatal "internal: dangling frame reference" st1
    | some fr =>
        .ok () { st1 with frames := st1.frames.set aid { fr with values := aset fr.values name v } }

/-- A CPython call of the bound method `Environment.assign_at`
(environment.py:79), whose parameter list is
`(self, distance, name, value)`: any other positional argument count
raises TypeError before the body runs. -/
def assignAtCall (st : St) (eid : Nat) (args : List PyArg) : Res Unit :=
  if args.length = 3 then
    match args with
    | [.intA d, .strA nm, .valA v] => assignAtBody st eid d nm v
    | _ => .fatal "TypeError: bad argument type for assign_at" st
  else
    .fatal ("TypeError: assign_at() takes 4 positional arguments but "
            ++ toString (args.length + 1) ++ " were given") st

/-- `Environment.get` (environment.py:27-44): look the name up in this
frame's dict — a hit on the UNINITIALIZED sentinel raises
"Uninitialized variable", a miss recurses into the enclosing frame, and
a chain without the name raises "Undefined variable". The recursion is
fuel-bounded because enclosing links are heap references. -/
def envGetF : Nat → St → Nat → String → Res Val
  | 0, _, _, _ => .spin
  | f + 1, st, eid, name =>
      match st.frames.get? eid with
      | none => .fatal "internal: dangling frame reference" st
      | some fr =>
          match aget fr.values name with
          | some v =>
              if v = .uninit then
                .err ("Uninitialized variable '" ++ name ++ "'.") st
              else .ok v st
          | none =>
              match fr.enclosing with
              | some p => envGetF f st p name
              | none => .err ("Undefined variable '" ++ name ++ "'.") st

/-- `Environment.assign` (environment.py:62-77): assign in the nearest
enclosing frame that has the name, else "Undefined variable". -/
def envAssignF : Nat → St → Nat → String → Val → Res Unit
  | 0, _, _, _, _ => .spin
  | f + 1, st, eid, name, v =>
      match st.frames.get? eid with
      | none => .fatal "internal: dangling frame reference" st
      | some fr =>
          match aget fr.values name with
          | some _ =>
              .ok () { st with frames := st.frames.set eid { fr with values := aset fr.values name v } }
          | none =>
              match fr.enclosing with
              | some p => envAssignF f st p name v
              | none => .err ("Undefined variable '" ++ name ++ "'.") st

/-! ## The GlobalEnvironment of src/pylox/interpreter.py:20-59 -/

/-- `GlobalEnvironment.define` (interpreter.py:30-31). -/
def globalDefine (st : St) (name : String) (v : Val) : St :=
  { st with globals := aset st.globals name v }

/-- `GlobalEnvironment.get` (interpreter.py:33-46): flat name lookup with
the UNINITIALIZED check. -/
def globalGet (st : St) (name : String) : Res Val :=
  match aget st.globals name with
  | some v =>
      if v = .uninit then .err ("Uninitialized variable '" ++ name ++ "'.") st
      else .ok v st
  | none => .err ("Undefined variable '" ++ name ++ "'.") st

/-- `GlobalEnvironment.assign` (interpreter.py:48-59): update an existing
name, else "Undefined variable". -/
def globalAssign (st : St) (name : String) (v : Val) : Res Unit :=
  match aget st.globals name with
  | some _ => .ok () { st with globals := aset st.globals name v }
  | none => .err ("Undefined variable '" ++ name ++ "'.") st

/-- `Interpreter.__lookup_variable` (interpreter.py:101-107): when the
binding table has an entry for the node and a current frame exists, call
`self.environment.get_at(distance, index, name.lexeme)` — three
positional arguments; otherwise fall back to the global table by name. -/
def lookupVariable (st : St) (nodeId : Nat) (name : String) : Res Val :=
  match lget st.locals nodeId, st.env with
  | some (d, i), some eid => getAtCall st eid [.intA d, .intA i, .strA name]
  | _, _ => globalGet st name

/-- `Interpreter.__assign_variable` (interpreter.py:109-120): the
resolved path calls `assign_at(distance, index, name, value)` — four
positional arguments; otherwise assign in the global table. -/
def assignVariable (st : St) (nodeId : Nat) (name : String) (v : Val) : Res Unit :=
  match lget st.locals nodeId, st.env with
  | some (d, i), some eid => assignAtCall st eid [.intA d, .intA i, .strA name, .valA v]
  | _, _ => globalAssign st name v

/-! ## Callable objects (src/pylox/callable.py, src/pylox/loxclass.py) -/

/-- `LoxFunction.bind` (callable.py:72-78): create a fresh Environment
whose enclosing is the function's closure, then `env.define(None,
instance)` — Environment.define (environment.py:23-25) dereferences
`name.lexeme` on that None, raising AttributeError. On the (never
reached) success path the result shares the declaration with a new
closure. -/
def loxBind (st : St) (fo : FnObj) (instanceV : Val) : Res FnObj :=
  let nid := st.frames.length
  let st1 := { st with frames := st.frames ++ [⟨[], fo.closure⟩] }
  (envDefine st1 nid none instanceV).andThen fun _ st2 =>
    .ok { fo with closure := some nid } st2

/-- The parameter-definition loop of `LoxFunction.call`
(callable.py:50-51): `for i, arg in enumerate(arguments):
env.define(self.declaration.params[i], arg)` — driven by the arguments,
so a surplus argument indexes past the parameter list (IndexError). -/
def bindParams (st : St) (eid : Nat) : List String → List Val → Res Unit
  | _, [] => .ok () st
  | [], _ :: _ => .fatal "IndexError: list index out of range" st
  | p :: ps, a :: rest =>
      (envDefine st eid (some p) a).andThen fun _ st1 => bindParams st1 eid ps rest

/-- The initializer return value of `LoxFunction.call`
(callable.py:56-60 and 63-67): a closure-less initializer prints
"SHOULD NOT HAPPEN!" and returns None; otherwise
`self.closure.get_at(0, 0, "this")` — three positional arguments to the
two-parameter get_at of environment.py. -/
def initReturn (st : St) (fo : FnObj) : Res Val :=
  match fo.closure with
  | none => .ok .nil { st with output := st.output ++ ["SHOULD NOT HAPPEN! in callable.py"] }
  | some c => getAtCall st c [.intA 0, .intA 0, .strA "this"]

/-- `LoxClass.arity` (loxclass.py:93-96): the initializer's arity, else 0.
`none` models a dangling function reference (unreachable). -/
def classArity (st : St) (co : ClassObj) : Option Nat :=
  match co.initializer with
  | none => some 0
  | some fid => (st.funs.get? fid).map fun fo => fo.params.length

/-- The runtime-error message of loxclass.py:81-87 for a
superclass-initializer arity mismatch, naming the offending superclass. -/
def superInitArityMsg (superclassName : String) : String :=
  "Cannot initialize because the number of arguments passed to the "
  ++ "initializer doesn't fit the number of parameters of the initializer of '"
  ++ superclassName ++ "'. Consider adding an initializer method."

/-- `Environment(enclosing)` then restore on exit:
`Interpreter.execute_block` (interpreter.py:85-96) saves the current
frame, runs the statements, and restores it in a `finally`, so every
exit path — normal, break, return, LoxRuntimeError, or a Python-level
exception — puts the saved frame back. -/
def restoreEnv {α : Type} (prev : Option Nat) : Res α → Res α
  | .ok a st => .ok a { st with env := prev }
  | .brk st => .brk { st with env := prev }
  | .ret v st => .ret v { st with env := prev }
  | .err m st => .err m { st with env := prev }
  | .fatal m st => .fatal m { st with env := prev }
  | .spin => .spin

/-- The arity-mismatch message of `Interpreter.visit_call_expr`
(interpreter.py:172-178). -/
def callArityMsg (expected got : Nat) : String :=
  "Expected " ++ toString expected ++ " arguments, but got " ++ toString got ++ "."

mutual

/-- Expression evaluation (`Interpreter.evaluate` dispatching on the
visitor methods of interpreter.py), fuel-bounded. -/
def evalExpr : Nat → Expr → St → Res Val
  | 0, _, _ => .spin
  | f + 1, e, st =>
      match e with
      | .lit v => .ok v st
      | .grouping e1 => evalExpr f e1 st
      | .unary op e1 =>
          (evalExpr f e1 st).andThen fun v st1 => unOpApply op v st1
      | .binary op l r =>
          (evalExpr f l st).andThen fun vl st1 =>
            (evalExpr f r st1).andThen fun vr st2 => binOpApply op vl vr st2
      | .logical op l r =>
          (evalExpr f l st).andThen fun vl st1 =>
            match op with
            | .orOp => if truthy vl then .ok vl st1 else evalExpr f r st1
            | .andOp => if truthy vl then evalExpr f r st1 else .ok vl st1
      | .ternery c t e1 =>
          (evalExpr f c st).andThen fun vc st1 =>
            if truthy vc then evalExpr f t st1 else evalExpr f e1 st1
      | .variable nid name => lookupVariable st nid name
      | .assign nid name rhs =>
          (evalExpr f rhs st).andThen fun v st1 =>
            (assignVariable st1 nid name v).andThen fun _ st2 => .ok v st2
      | .funlit params body =>
          let fo : FnObj := ⟨none, params, body, st.env, false⟩
          .ok (.fn st.funs.length) { st with funs := st.funs ++ [fo] }
      | .call callee args =>
          (evalExpr f callee st).andThen fun cv st1 =>
            (evalArgs f args st1).andThen fun avs st2 =>
              match cv with
              | .fn fid =>
                  match st2.funs.get? fid with
                  | none => .fatal "internal: dangling function reference" st2
                  | some fo =>
                      if avs.length = fo.params.length then callFunction f fo avs st2
                      else .err (callArityMsg fo.params.length avs.length) st2
              | .klass cid =>
                  match st2.classes.get? cid with
                  | none => .fatal "internal: dangling class reference" st2
                  | some co =>
                      match classArity st2 co with
                      | none => .fatal "internal: dangling function reference" st2
                      | some ar =>
                          if avs.length = ar then loxClassCall f cid co avs st2
                          else .err (callArityMsg ar avs.length) st2
              | _ => .err "Can only call functions and classes." st2

/-- Left-to-right evaluation of a call's argument list
(interpreter.py:162-164). -/
def evalArgs : Nat → List Expr → St → Res (List Val)
  | 0, _, _ => .spin
  | _ + 1, [], st => .ok [] st
  | f + 1, e :: rest, st =>
      (evalExpr f e st).andThen fun v st1 =>
        (evalArgs f rest st1).andThen fun vs st2 => .ok (v :: vs) st2

/-- Statement execution (`Interpreter.execute` dispatching on the
visitor methods of interpreter.py:334-439), fuel-bounded. -/
def execStmt : Nat → Stmt → St → Res Unit
  | 0, _, _ => .spin
  | f + 1, s, st =>
      match s with
      | .expression e => (evalExpr f e st).andThen fun _ st1 => .ok () st1
      | .print e =>
          (evalExpr f e st).andThen fun v st1 =>
            .ok () { st1 with output := st1.output ++ [stringify st1 v] }
      | .var name init =>
          (match init with
           | none => Res.ok Val.uninit st
           | some e => evalExpr f e st).andThen fun v st1 =>
            match st1.env with
            | some eid => envDefine st1 eid (some name) v
            | none => .ok () (globalDefine st1 name v)
      | .block ss =>
          restoreEnv st.env
            (execList f ss
              { st with frames := st.frames ++ [⟨[], st.env⟩], env := some st.frames.length })
      | .ifS c t e =>
          (evalExpr f c st).andThen fun vc st1 =>
            if truthy vc then execStmt f t st1
            else
              match e with
              | some s1 => execStmt f s1 st1
              | none => .ok () st1
      | .whileS c b =>
          match whileLoop f c b st with
          | .brk st1 => .ok () st1
          | r => r
      | .breakS => .brk st
      | .returnS none => .ret .nil st
      | .returnS (some e) => (evalExpr f e st).andThen fun v st1 => .ret v st1
      | .fundef name params body =>
          let fo : FnObj := ⟨some name, params, body, st.env, false⟩
          let v := Val.fn st.funs.length
          let st1 := { st with funs := st.funs ++ [fo] }
          match st1.env with
          | some eid => envDefine st1 eid (some name) v
          | none => .ok () (globalDefine st1 name v)

/-- Sequential statement execution; a raised signal aborts the rest. -/
def execList : Nat → List Stmt → St → Res Unit
  | 0, _, _ => .spin
  | _ + 1, [], st => .ok () st
  | f + 1, s :: rest, st =>
      (execStmt f s st).andThen fun _ st1 => execList f rest st1

/-- The `while` loop inside the `try` of `visit_while_stmt`
(interpreter.py:344-349): test the condition, run the body, repeat. Any
raised signal — LoxBreak included — escapes this loop to the handler in
`execStmt`. -/
def whileLoop : Nat → Expr → Stmt → St → Res Unit
  | 0, _, _, _ => .spin
  | f + 1, c, b, st =>
      (evalExpr f c st).andThen fun vc st1 =>
        if truthy vc then
          (execStmt f b st1).andThen fun _ st2 => whileLoop f c b st2
        else .ok () st1

/-- `LoxFunction.call` (callable.py:47-67): a fresh frame over the
closure, parameters defined in order, the body run by `execute_block`
(which restores the caller's current frame on every exit), `LoxReturn`
caught, and the initializer cases consulting `get_at(0, 0, "this")`.
A normal fall-off returns None. -/
def callFunction : Nat → FnObj → List Val → St → Res Val
  | 0, _, _, _ => .spin
  | f + 1, fo, args, st =>
      let nid := st.frames.length
      let st1 := { st with frames := st.frames ++ [⟨[], fo.closure⟩] }
      (bindParams st1 nid fo.params args).andThen fun _ st2 =>
        match restoreEnv st2.env (execList f fo.body { st2 with env := some nid }) with
        | .ret v st3 => if fo.isInit then initReturn st3 fo else .ok v st3
        | .ok _ st3 => if fo.isInit then initReturn st3 fo else .ok .nil st3
        | r => r.andThen fun _ s => .ok .nil s

/-- `LoxClass.call` (loxclass.py:69-91): allocate a fresh instance; an
own initializer is bound and invoked with the arguments; otherwise every
superclass initializer is invoked in declared order, each bound to the
new instance after an exact arity check that raises a runtime error
naming the offending superclass. The instance is returned. -/
def loxClassCall : Nat → Nat → ClassObj → List Val → St → Res Val
  | 0, _, _, _, _ => .spin
  | f + 1, cid, co, args, st =>
      let iid := st.insts.length
      let st1 := { st with insts := st.insts ++ [⟨cid, []⟩] }
      match co.initializer with
      | some fid =>
          match st1.funs.get? fid with
          | none => .fatal "internal: dangling function reference" st1
          | some fo =>
              (loxBind st1 fo (.inst iid)).andThen fun bf st2 =>
                (callFunction f bf args st2).andThen fun _ st3 => .ok (.inst iid) st3
      | none =>
          (superInitLoop f (.inst iid) args co.superclasses st1).andThen fun _ st2 =>
            .ok (.inst iid) st2

/-- The superclass-initializer loop of `LoxClass.call`
(loxclass.py:76-90): skip initializer-less superclasses; check each
found initializer's arity against the argument count, raising the
runtime error that names the superclass; else bind it to the new
instance and invoke it. -/
def superInitLoop : Nat → Val → List Val → List Nat → St → Res Unit
  | 0, _, _, _, _ => .spin
  | _ + 1, _, _, [], st => .ok () st
  | f + 1, instV, args, scid :: rest, st =>
      match st.classes.get? scid with
      | none => .fatal "internal: dangling class reference" st
      | some sc =>
          match sc.initializer with
          | none => superInitLoop f instV args rest st
          | some ifid =>
              match st.funs.get? ifid with
              | none => .fatal "internal: dangling function reference" st
              | some ifo =>
                  if ifo.params.length = args.length then
                    (loxBind st ifo instV).andThen fun bf st1 =>
                      (callFunction f bf args st1).andThen fun _ st2 =>
                        superInitLoop f instV args rest st2
                  else .err (superInitArityMsg sc.cname) st

/-- The PLUS and other operator dispatch of `visit_binary_expr`
(interpreter.py:220-273) applied to the two evaluated operands:
equality via Python `==`, comparisons and arithmetic requiring numbers
("Both operands mus be numbers." — the source's wording), `+` also
concatenating strings and coercing a number paired with a string, and
`/` rejecting a zero divisor. -/
def binOpApply (op : BinOp) (l r : Val) (st : St) : Res Val :=
  match op with
  | .eqeq => .ok (.bool (pyEq l r)) st
  | .bangeq => .ok (.bool (! pyEq l r)) st
  | .gt =>
      match l, r with
      | .num a, .num b => .ok (.bool (decide (a > b))) st
      | _, _ => .err "Both operands mus be numbers." st
  | .ge =>
      match l, r with
      | .num a, .num b => .ok (.bool (decide (a ≥ b))) st
      | _, _ => .err "Both operands mus be numbers." st
  | .lt =>
      match l, r with
      | .num a, .num b => .ok (.bool (decide (a < b))) st
      | _, _ => .err "Both operands mus be numbers." st
  | .le =>
      match l, r with
      | .num a, .num b => .ok (.bool (decide (a ≤ b))) st
      | _, _ => .err "Both operands mus be numbers." st
  | .plus =>
      match l, r with
      | .str s, .str t => .ok (.str (s ++ t)) st
      | .num a, .num b => .ok (.num (a + b)) st
      | .num a, .str t => .ok (.str (pyFloatStr a ++ t)) st
      | .str s, .num b => .ok (.str (s ++ pyFloatStr b)) st
      | _, _ => .err "Both operands have to be strings or numbers." st
  | .minus =>
      match l, r with
      | .num a, .num b => .ok (.num (a - b)) st
      | _, _ => .err "Both operands mus be numbers." st
  | .star =>
      match l, r with
      | .num a, .num b => .ok (.num (a * b)) st
      | _, _ => .err "Both operands mus be numbers." st
  | .slash =>
      match l, r with
      | .num a, .num b =>
          if b = 0 then .err "Do not divide by zero!" st
          else .ok (.num (a / b)) st
      | _, _ => .err "Both operands mus be numbers." st

/-- `visit_unary_expr` (interpreter.py:204-214): `-` needs a number,
`!` negates truthiness. -/
def unOpApply (op : UnOp) (v : Val) (st : St) : Res Val :=
  match op with
  | .neg =>
      match v with
      | .num a => .ok (.num (-a)) st
      | _ => .err "Operand must be a number." st
  | .bang => .ok (.bool (! truthy v)) st

end

/-! ## The Resolver of src/pylox/resolver.py -/

/-- The per-name scope entry of the resolver (resolver.py:30-35): the
Token field is dropped (pure diagnostics). -/
structure VarSt where
  defined : Bool
  used : Bool
  localIndex : Nat
deriving DecidableEq, Repr

/-- The function-type flag (resolver.py:15-21). -/
inductive FT where
  | noneF | functionF | methodF | staticMethodF | initializerF
deriving DecidableEq, Repr

/-- The resolver's mutable state: the scope stack (head = innermost,
matching the deque's right end), the accumulated error messages, the
binding table handed to the interpreter via `Interpreter.resolve`, and
the current function-type flag.

Modelled from the spec: the resolver reports through
`error_reporter.report_resolver`, a method absent from the ErrorReporter
of src/pylox/pylox.py (which predates the resolver); per the spec,
resolver errors "are accumulated, not fatal to the pass", so reporting
is modelled as appending the message to `errors`. -/
structure RState where
  scopes : List (List (String × VarSt))
  errors : List String
  bindings : List (Nat × Nat × Nat)
  currentFunction : FT
deriving Repr

/-- The duplicate-declaration message of `Resolver.__declare`
(resolver.py:82-86). -/
def dupDeclMsg (name : String) : String :=
  "There is already a variable with name '" ++ name ++ "' in this scope."

/-- `Resolver.__declare` (resolver.py:76-88): nothing at global scope;
otherwise report an error when the name already exists in the innermost
scope, then store the entry with the next slot index (`len(scope)`,
computed before the insertion). -/
def rDeclare (name : String) (rs : RState) : RState :=
  match rs.scopes with
  | [] => rs
  | top :: rest =>
      let errs :=
        if (aget top name).isSome then rs.errors ++ [dupDeclMsg name] else rs.errors
      let idx := top.length
      { rs with
          scopes := aset top name ⟨false, false, idx⟩ :: rest
          errors := errs }

/-- `Resolver.__define` (resolver.py:90-94): mark the innermost scope's
entry as defined. A missing entry would be a Python KeyError; it is
unreachable because every `define` follows a `declare` of the same name,
so it is modelled as a no-op. -/
def rDefine (name : String) (rs : RState) : RState :=
  match rs.scopes with
  | [] => rs
  | top :: rest =>
      match aget top name with
      | none => rs
      | some vs => { rs with scopes := aset top name { vs with defined := true } :: rest }

/-- The scope walk of `Resolver.__resolve_local` (resolver.py:96-104):
find the innermost scope holding the name, mark it used, and return the
updated stack with the depth and the entry's slot index. -/
def rLocalAux (name : String) (i : Nat) :
    List (List (String × VarSt)) → Option (List (List (String × VarSt)) × Nat × Nat)
  | [] => none
  | top :: rest =>
      match aget top name with
      | some vs => some (aset top name { vs with used := true } :: rest, i, vs.localIndex)
      | none =>
          (rLocalAux name (i + 1) rest).map fun p => (top :: p.1, p.2)

/-- `Resolver.__resolve_local` (resolver.py:96-104) plus
`Interpreter.resolve` (interpreter.py:98-99): record (depth, slot) for
the node when some scope holds the name; otherwise leave the node
unresolved (global at runtime). -/
def rResolveLocal (nodeId : Nat) (name : String) (rs : RState) : RState :=
  match rLocalAux name 0 rs.scopes with
  | some (scopes1, d, idx) =>
      { rs with scopes := scopes1, bindings := rs.bindings ++ [(nodeId, d, idx)] }
  | none => rs

/-- The unused-local errors of `Resolver.__end_scope`
(resolver.py:67-74), in the scope's insertion order. -/
def unusedErrs : List (String × VarSt) → List String
  | [] => []
  | (n, vs) :: rest =>
      (if vs.used then [] else ["Local variable '" ++ n ++ "' defined but never used."])
      ++ unusedErrs rest

/-- `Resolver.__end_scope` (resolver.py:67-74): pop the innermost scope
and report every never-used local. -/
def rEndScope (rs : RState) : RState :=
  match rs.scopes with
  | [] => rs
  | top :: rest => { rs with scopes := rest, errors := rs.errors ++ unusedErrs top }

/-- `Resolver.__begin_scope` (resolver.py:64-65). -/
def rBeginScope (rs : RState) : RState :=
  { rs with scopes := [] :: rs.scopes }

/-- The parameter loop of `Resolver.__resolve_function`
(resolver.py:112-114): declare and define each parameter in order. -/
def rParams : List String → RState → RState
  | [], rs => rs
  | p :: ps, rs => rParams ps (rDefine p (rDeclare p rs))

mutual

/-- Statement resolution (the Stmt.Visitor methods of resolver.py),
fuel-bounded; `none` is exhausted fuel, never a verdict. -/
def rStmt : Nat → Stmt → RState → Option RState
  | 0, _, _ => none
  | f + 1, s, rs =>
      match s with
      | .expression e => rExpr f e rs
      | .print e => rExpr f e rs
      | .var name init =>
          let rs1 := rDeclare name rs
          (match init with
           | none => some rs1
           | some e => rExpr f e rs1).map (rDefine name)
      | .block ss => (rList f ss (rBeginScope rs)).map rEndScope
      | .ifS c t e =>
          (rExpr f c rs).bind fun rs1 =>
            (rStmt f t rs1).bind fun rs2 =>
              match e with
              | none => some rs2
              | some s1 => rStmt f s1 rs2
      | .whileS c b => (rExpr f c rs).bind (rStmt f b)
      | .breakS => some rs
      | .returnS none => some rs
      | .returnS (some e) =>
          let rs1 :=
            if rs.currentFunction = .initializerF then
              { rs with errors := rs.errors ++ ["Can't return a value from initializer."] }
            else rs
          rExpr f e rs1
      | .fundef name params body =>
          rFunction f params body .functionF (rDefine name (rDeclare name rs))

/-- Expression resolution (the Expr.Visitor methods of resolver.py). A
variable read checks the own-initializer rule (resolver.py:131-138); a
call resolves its arguments before its callee (resolver.py:161-164). -/
def rExpr : Nat → Expr → RState → Option RState
  | 0, _, _ => none
  | f + 1, e, rs =>
      match e with
      | .lit _ => some rs
      | .grouping e1 => rExpr f e1 rs
      | .unary _ e1 => rExpr f e1 rs
      | .binary _ l r => (rExpr f l rs).bind (rExpr f r)
      | .logical _ l r => (rExpr f l rs).bind (rExpr f r)
      | .ternery c t e1 =>
          (rExpr f c rs).bind fun a => (rExpr f t a).bind (rExpr f e1)
      | .variable nid name =>
          let rs1 :=
            match rs.scopes with
            | [] => rs
            | top :: _ =>
                match aget top name with
                | some vs =>
                    if vs.defined then rs
                    else { rs with errors := rs.errors
                            ++ ["Can't read local variable in its own initializer."] }
                | none => rs
          some (rResolveLocal nid name rs1)
      | .assign nid name v => (rExpr f v rs).map (rResolveLocal nid name)
      | .call callee args => (rExprList f args rs).bind (rExpr f callee)
      | .funlit params body => rFunction f params body .functionF rs

/-- `Resolver.resolve_stmt_list` (resolver.py:57-59). -/
def rList : Nat → List Stmt → RState → Option RState
  | 0, _, _ => none
  | _ + 1, [], rs => some rs
  | f + 1, s :: rest, rs => (rStmt f s rs).bind (rList f rest)

/-- Argument-list resolution for a call (resolver.py:162-163). -/
def rExprList : Nat → List Expr → RState → Option RState
  | 0, _, _ => none
  | _ + 1, [], rs => some rs
  | f + 1, e :: rest, rs => (rExpr f e rs).bind (rExprList f rest)

/-- `Resolver.__resolve_function` (resolver.py:106-117): save and set the
function-type flag, open a scope, declare and define the parameters,
resolve the body, close the scope, restore the flag. -/
def rFunction : Nat → List String → List Stmt → FT → RState → Option RState
  | 0, _, _, _, _ => none
  | f + 1, params, body, typ, rs =>
      let enclosing := rs.currentFunction
      let rs1 := rParams params (rBeginScope { rs with currentFunction := typ })
      (rList f body rs1).map fun rs2 =>
        { rEndScope rs2 with currentFunction := enclosing }

end

/-- A fresh resolver (resolver.py:45-52) run over a program's statement
list, as `LoxInclude.call` (builtin.py:192-193) drives it. -/
def resolveProgram (fuel : Nat) (stmts : List Stmt) : Option RState :=
  rList fuel stmts ⟨[], [], [], .noneF⟩

/-! ## The run pipeline of src/pylox/pylox.py -/

/-- The outcome of one `PyLox.run`: a normal exit code with the printed
output, or an uncaught Python exception escaping `run` (LoxBreak or
LoxReturn at top level, or a Python-level error). -/
inductive RunOutcome where
  | normal (exitCode : Nat) (output : List String)
  | crashed (msg : String) (output : List String)
deriving DecidableEq, Repr

/-- The interpreter state a fresh `Interpreter` starts from
(interpreter.py:68-72), the native builtin preload aside. -/
def stInit : St := ⟨[], [], none, [], [], [], [], []⟩

/-- `PyLox.run` (pylox.py:104-122) from the parse products onward: when
the reporter recorded a lex/parse error, exit 65 without interpreting;
otherwise hand the statements to `Interpreter.interpret`
(interpreter.py:74-80), which catches LoxRuntimeError, reports it (exit
70) and nothing else. No resolver pass runs between parsing and
interpretation, so `local_definitions` stays empty. `none` is exhausted
fuel. -/
def pyloxRun (fuel : Nat) (hadParseError : Bool) (stmts : List Stmt) : Option RunOutcome :=
  if hadParseError then some (.normal 65 [])
  else
    match execList fuel stmts stInit with
    | .ok _ st => some (.normal 0 st.output)
    | .err m st => some (.normal 70 (st.output ++ ["Runtime error: " ++ m]))
    | .brk st => some (.crashed "LoxBreak" st.output)
    | .ret _ st => some (.crashed "LoxReturn" st.output)
    | .fatal m st => some (.crashed m st.output)
    | .spin => none

/-! ## Auxiliary definitions for the claim statements -/

/-- `LoxClass.__init__` (loxclass.py:47-67): build a class object,
caching `methods["init"]` as the initializer. -/
def mkClassObj (name : String) (supers : List Nat)
    (methods statics : List (String × Nat)) : ClassObj :=
  ⟨name, supers, methods, statics, aget methods "init"⟩

/-- Negate the boolean of a normal boolean result, leave everything else
(used to state that `!=` is the exact negation of `==`). -/
def mapNeg : Res Val → Res Val
  | .ok (.bool b) st => .ok (.bool (!b)) st
  | r => r

/-- The runtime type tag of a value (Python's type of the object). -/
def vTag : Val → Nat
  | .nil => 0
  | .bool _ => 1
  | .num _ => 2
  | .str _ => 3
  | .fn _ => 4
  | .klass _ => 5
  | .inst _ => 6
  | .uninit => 7

/-- Whether the pair is a boolean together with a number (in either
order), the one cross-type pair Python `==` can equate. -/
def isBoolNumPair : Val → Val → Bool
  | .bool _, .num _ => true
  | .num _, .bool _ => true
  | _, _ => false

/-- The operand shapes `+` accepts (interpreter.py:238-251): two numbers,
two strings, or a number paired with a string. -/
def plusShapeOk : Val → Val → Bool
  | .num _, .num _ => true
  | .str _, .str _ => true
  | .num _, .str _ => true
  | .str _, .num _ => true
  | _, _ => false

/-- A state with one frame holding the declaration `a = 1`, a current
frame pointing at it, and a binding table resolving node 7 to the pair
(depth 0, slot 0) — the state right after a resolved reference to that
declaration starts evaluating. -/
def stOneLocal : St :=
  ⟨[⟨[("a", .num 1)], none⟩], [], some 0, [], [], [], [(7, 0, 0)], []⟩

/-- A method object whose closure is frame 0, for exercising bind. -/
def methodFixture : FnObj := ⟨some "m", [], [], some 0, false⟩

/-- Class A with an `init` method (function 0) and no superclasses. -/
def classA : ClassObj := mkClassObj "A" [] [("init", 0)] []

/-- Class B : A with no methods of its own — in particular no own
`init`. -/
def classB : ClassObj := mkClassObj "B" [0] [] []

/-- A heap where A's initializer (function 0) takes no parameters. -/
def stClasses : St :=
  ⟨[], [], none, [⟨some "init", [], [], none, true⟩], [classA, classB], [], [], []⟩

/-- The same heap, but A's initializer takes one parameter `x`, so
calling B with no arguments mismatches its arity. -/
def stClassesArity : St :=
  { stClasses with funs := [⟨some "init", ["x"], [], none, true⟩] }

/-- A program the resolver rejects: one block declaring the local `a`
twice (a duplicate declaration, and both declarations end unused), then
printing 3. -/
def dupProgram : List Stmt :=
  [.block [.var "a" (some (.lit (.num 1))), .var "a" (some (.lit (.num 2))),
           .print (.lit (.num 3))]]

/-! ## Helper lemmas -/

/-- A dict read of a just-written key yields the written value. -/
theorem aget_aset_self {α : Type} (d : List (String × α)) (k : String) (v : α) :
    aget (aset d k v) k = some v := by
  induction d with
  | nil => simp [aset, aget]
  | cons h rest ih =>
      by_cases hk : h.1 = k
      · cases h
        simp_all [aset, aget]
      · cases h
        simp_all [aset, aget]

/-! ## The claims -/

/-- C1: the claim fails on the code. At a reference the Resolver resolved
to (depth 0, slot 0), evaluated with a current frame that holds the very
declaration, `Interpreter.__lookup_variable` does not walk the chain and
return the stored value: it passes three positional arguments
(distance, index, name) to `Environment.get_at`, whose parameter list is
(distance, name), so CPython raises TypeError before any lookup happens
— the lookup always fails. `__assign_variable` likewise passes four
positional arguments to the three-parameter `assign_at`. -/
theorem c1_resolved_lookup_is_python_type_error :
    lookupVariable stOneLocal 7 "a"
      = .fatal "TypeError: get_at() takes 3 positional arguments but 4 were given" stOneLocal
  ∧ assignVariable stOneLocal 7 "a" (.num 2)
      = .fatal "TypeError: assign_at() takes 4 positional arguments but 5 were given" stOneLocal :=
  ⟨rfl, rfl⟩

/-- C2: the claim fails on the code. The resolver pass reports two
ResolverErrors on `dupProgram` (a duplicate declaration of `a` in one
scope, and the unused local), yet `PyLox.run` — which never invokes the
Resolver between parsing and interpreting — executes all of the
program's statements: the run completes normally with exit code 0,
having printed "3.0". -/
theorem c2_run_interprets_despite_resolver_errors :
    (resolveProgram 30 dupProgram).map RState.errors
      = some ["There is already a variable with name 'a' in this scope.",
              "Local variable 'a' defined but never used."]
  ∧ pyloxRun 30 false dupProgram = some (.normal 0 ["3.0"]) :=
  ⟨rfl, rfl⟩

/-- C3: the claim fails on the code. `LoxFunction.bind` does create a
fresh frame parented on the function's closure, but it then calls
`Environment.define(None, instance)`, and `define` dereferences
`name.lexeme` on that None: every bind raises a Python AttributeError
instead of returning a bound copy holding `this = instance`. -/
theorem c3_bind_raises_attribute_error :
    loxBind stOneLocal methodFixture (.inst 0)
      = .fatal "AttributeError: 'NoneType' object has no attribute 'lexeme'"
          { stOneLocal with frames := stOneLocal.frames ++ [⟨[], some 0⟩] } :=
  rfl

/-- C4: the claim fails on the code on its main path. Calling B (which
has no own `init`, superclass A) does allocate a fresh instance and does
walk the superclasses in declared order, and an arity mismatch raises
exactly the RuntimeError naming the offending superclass A; but when the
arity matches, binding A's initializer to the new instance crashes with
the Python AttributeError inside `LoxFunction.bind` before the
initializer can be invoked. -/
theorem c4_superclass_initializer_paths :
    loxClassCall 10 1 classB [] stClasses
      = .fatal "AttributeError: 'NoneType' object has no attribute 'lexeme'"
          { stClasses with insts := [⟨1, []⟩], frames := [⟨[], none⟩] }
  ∧ loxClassCall 10 1 classB [] stClassesArity
      = .err (superInitArityMsg "A") { stClassesArity with insts := [⟨1, []⟩] } :=
  ⟨rfl, rfl⟩

/-- C5: the claim as stated is false at a concrete input. Evaluating the
binary comparisons of the Lox literals `true` and `1` shows a boolean
and a number comparing equal: `true == 1` evaluates to true (and
`true != 1` to its exact negation false), because
`Interpreter.__is_equal` is Python `==`, which equates booleans with
numbers by numeric value. -/
theorem c5_bool_number_equality_counterexample :
    evalExpr 3 (.binary .eqeq (.lit (.bool true)) (.lit (.num 1))) stInit
      = .ok (.bool true) stInit
  ∧ evalExpr 3 (.binary .bangeq (.lit (.bool true)) (.lit (.num 1))) stInit
      = .ok (.bool false) stInit :=
  ⟨rfl, rfl⟩

/-- C5 (amended): `!=` always evaluates to the exact negation of `==`
(on every operand pair, state and fuel), and `==` is Python value
equality, which never equates values of different runtime types EXCEPT
that a boolean and a number compare by numeric value (true = 1,
false = 0). -/
theorem c5_equality_negation_and_cross_type :
    (∀ f l r st,
        evalExpr (f + 1) (.binary .bangeq l r) st
          = mapNeg (evalExpr (f + 1) (.binary .eqeq l r) st))
  ∧ (∀ v w, vTag v ≠ vTag w → isBoolNumPair v w = false → pyEq v w = false)
  ∧ (∀ b q, pyEq (.bool b) (.num q) = ((if b then (1 : ℚ) else 0) == q)
        ∧ pyEq (.num q) (.bool b) = (q == (if b then (1 : ℚ) else 0))) := by
  refine ⟨?_, ?_, ?_⟩
  · intro f l r st
    show Res.andThen (evalExpr f l st) _ = mapNeg (Res.andThen (evalExpr f l st) _)
    cases evalExpr f l st with
    | ok vl st1 =>
        show Res.andThen (evalExpr f r st1) _ = mapNeg (Res.andThen (evalExpr f r st1) _)
        cases evalExpr f r st1 with
        | ok vr st2 => simp [Res.andThen, binOpApply, mapNeg]
        | brk st2 => rfl
        | ret v st2 => rfl
        | err m st2 => rfl
        | fatal m st2 => rfl
        | spin => rfl
    | brk st1 => rfl
    | ret v st1 => rfl
    | err m st1 => rfl
    | fatal m st1 => rfl
    | spin => rfl
  · intro v w htag hbn
    cases v <;> cases w <;> simp_all [pyEq, vTag, isBoolNumPair]
  · intro b q
    exact ⟨rfl, rfl⟩

/-- C5 (witness): the amended theorem at concrete inputs — a string and
a number are unequal, and `2 != 2` is the negation of `2 == 2`. -/
theorem c5_equality_witness :
    pyEq (.str "1") (.num 1) = false
  ∧ evalExpr 3 (.binary .bangeq (.lit (.num 2)) (.lit (.num 2))) stInit
      = mapNeg (evalExpr 3 (.binary .eqeq (.lit (.num 2)) (.lit (.num 2))) stInit) :=
  ⟨c5_equality_negation_and_cross_type.2.1 (.str "1") (.num 1) (by decide) rfl,
   c5_equality_negation_and_cross_type.1 2 (.lit (.num 2)) (.lit (.num 2)) stInit⟩

/-- C6: `+` on two evaluated operands returns the numeric sum for two
numbers, the concatenation for two strings, and the concatenation with
the number side rendered by `str()` for a number paired with a string;
every other operand shape raises the RuntimeError "Both operands have to
be strings or numbers." — and a binary `+` node evaluates its operands
and dispatches exactly through this operator table. -/
theorem c6_plus_operator_cases :
    (∀ f l r st,
        evalExpr (f + 1) (.binary .plus l r) st
          = (evalExpr f l st).andThen fun vl st1 =>
              (evalExpr f r st1).andThen fun vr st2 => binOpApply .plus vl vr st2)
  ∧ (∀ a b st, binOpApply .plus (.num a) (.num b) st = .ok (.num (a + b)) st)
  ∧ (∀ s t st, binOpApply .plus (.str s) (.str t) st = .ok (.str (s ++ t)) st)
  ∧ (∀ a t st, binOpApply .plus (.num a) (.str t) st = .ok (.str (pyFloatStr a ++ t)) st)
  ∧ (∀ s b st, binOpApply .plus (.str s) (.num b) st = .ok (.str (s ++ pyFloatStr b)) st)
  ∧ (∀ v w st, plusShapeOk v w = false →
        binOpApply .plus v w st = .err "Both operands have to be strings or numbers." st) := by
  refine ⟨fun f l r st => rfl, fun a b st => rfl, fun s t st => rfl,
          fun a t st => rfl, fun s b st => rfl, ?_⟩
  intro v w st h
  cases v <;> cases w <;> simp_all [plusShapeOk, binOpApply]

/-- C6 (witness): the operator table at concrete inputs — `1 + true`
raises the RuntimeError, `1 + "2"` concatenates the rendered number with
the string, `"a" + "b"` concatenates, `1 + 2` sums. -/
theorem c6_plus_witness :
    binOpApply .plus (.num 1) (.bool true) stInit
      = .err "Both operands have to be strings or numbers." stInit
  ∧ binOpApply .plus (.num 1) (.str "2") stInit = .ok (.str (pyFloatStr 1 ++ "2")) stInit
  ∧ binOpApply .plus (.str "a") (.str "b") stInit = .ok (.str "ab") stInit
  ∧ binOpApply .plus (.num 1) (.num 2) stInit = .ok (.num 3) stInit :=
  ⟨c6_plus_operator_cases.2.2.2.2.2 (.num 1) (.bool true) stInit rfl,
   c6_plus_operator_cases.2.2.2.1 1 "2" stInit,
   c6_plus_operator_cases.2.2.1 "a" "b" stInit,
   by have h := c6_plus_operator_cases.2.1 1 2 stInit; norm_num at h; exact h⟩

/-- C7: `Resolver.__declare` on a local declaration (the scope stack
nonempty) reports the duplicate-declaration ResolverError exactly when
the name already exists in the innermost scope, and reports nothing when
it does not — whatever the enclosing scopes contain, so shadowing an
outer declaration is never an error. -/
theorem c7_declare_duplicate_exactly_in_innermost :
    ∀ name top rest errs binds ft,
      ((aget top name).isSome = true →
        (rDeclare name ⟨top :: rest, errs, binds, ft⟩).errors = errs ++ [dupDeclMsg name])
    ∧ ((aget top name).isSome = false →
        (rDeclare name ⟨top :: rest, errs, binds, ft⟩).errors = errs) := by
  intro name top rest errs binds ft
  constructor
  · intro h
    simp [rDeclare, h]
  · intro h
    simp [rDeclare, h]

/-- C7 (witness): the rule at concrete scope stacks — redeclaring `a` in
a scope that already has it reports the error; declaring `b` in an inner
scope while only an outer scope has `b` reports nothing. -/
theorem c7_declare_witness :
    (rDeclare "a" ⟨[[("a", ⟨true, true, 0⟩)], []], [], [], .noneF⟩).errors
      = [dupDeclMsg "a"]
  ∧ (rDeclare "b" ⟨[[("a", ⟨true, true, 0⟩)], [("b", ⟨true, true, 0⟩)]], [], [], .noneF⟩).errors
      = [] :=
  ⟨(c7_declare_duplicate_exactly_in_innermost "a" [("a", ⟨true, true, 0⟩)] [[]] [] [] .noneF).1 rfl,
   (c7_declare_duplicate_exactly_in_innermost "b" [("a", ⟨true, true, 0⟩)]
      [[("b", ⟨true, true, 0⟩)]] [] [] .noneF).2 rfl⟩

/-- C8: executing `break` raises the LoxBreak signal; the signal aborts
the remaining statements of any sequence it crosses and propagates
outward unchanged until a `while` statement, whose handler alone
consumes it: a `while` execution never lets a break escape (not to outer
loops, not to enclosing function calls, not to the runtime-error
handling), and a body iteration that breaks terminates exactly that loop
normally, in the state the break carried. -/
theorem c8_break_consumed_by_innermost_while :
    (∀ f c b st, isBrk (execStmt f (.whileS c b) st) = false)
  ∧ (∀ f st, execStmt (f + 1) .breakS st = .brk st)
  ∧ (∀ f s rest st st1, execStmt f s st = .brk st1 →
        execList (f + 1) (s :: rest) st = .brk st1)
  ∧ (∀ f c b st v st1 st2, evalExpr f c st = .ok v st1 → truthy v = true →
        execStmt f b st1 = .brk st2 →
        execStmt (f + 2) (.whileS c b) st = .ok () st2) := by
  refine ⟨?_, fun f st => rfl, ?_, ?_⟩
  · intro f c b st
    match f with
    | 0 => rfl
    | g + 1 =>
        show isBrk (match whileLoop g c b st with
          | .brk st1 => Res.ok () st1
          | r => r) = false
        cases whileLoop g c b st <;> rfl
  · intro f s rest st st1 h
    show Res.andThen (execStmt f s st) _ = .brk st1
    rw [h]
    rfl
  · intro f c b st v st1 st2 h1 h2 h3
    have hloop : whileLoop (f + 1) c b st = .brk st2 := by
      show Res.andThen (evalExpr f c st) _ = .brk st2
      rw [h1]
      show (if truthy v then Res.andThen (execStmt f b st1) _ else Res.ok () st1) = .brk st2
      rw [h2]
      show Res.andThen (execStmt f b st1) _ = .brk st2
      rw [h3]
      rfl
    show (match whileLoop (f + 1) c b st with
      | .brk st1 => Res.ok () st1
      | r => r) = .ok () st2
    rw [hloop]

/-- C8 (witness): the theorem at a concrete loop — `while (true) break;`
terminates normally having consumed the break, a bare `break` raises the
signal, and the loop's result is not a break. -/
theorem c8_break_witness :
    execStmt 4 (.whileS (.lit (.bool true)) .breakS) stInit = .ok () stInit
  ∧ execStmt 3 .breakS stInit = .brk stInit
  ∧ isBrk (execStmt 4 (.whileS (.lit (.bool true)) .breakS) stInit) = false :=
  ⟨c8_break_consumed_by_innermost_while.2.2.2 2 (.lit (.bool true)) .breakS stInit
      (.bool true) stInit stInit rfl rfl rfl,
   c8_break_consumed_by_innermost_while.2.1 2 stInit,
   c8_break_consumed_by_innermost_while.1 4 (.lit (.bool true)) .breakS stInit⟩

/-- C9: a block statement runs its body in a freshly allocated frame
whose parent is the previously current frame (the stated equation is the
block's execution unfolded once), and on every exit path that carries a
state — normal completion, a break signal, a return signal, a
LoxRuntimeError, or even a Python-level error — the current-frame
pointer is restored to what it was before the block; the restore touches
no other component of the interpreter state. -/
theorem c9_block_restores_frame_on_every_exit :
    (∀ f ss st st1, resultState (execStmt f (.block ss) st) = some st1 → st1.env = st.env)
  ∧ (∀ f ss st, execStmt (f + 1) (.block ss) st
      = restoreEnv st.env
          (execList f ss
            { st with frames := st.frames ++ [⟨[], st.env⟩], env := some st.frames.length }))
  ∧ (∀ (prev : Option Nat) (r : Res Unit),
        resultState (restoreEnv prev r)
          = (resultState r).map fun s => { s with env := prev }) := by
  have key : ∀ (prev : Option Nat) (r : Res Unit) (st1 : St),
      resultState (restoreEnv prev r) = some st1 → st1.env = prev := by
    intro prev r st1 h
    cases r <;> simp [restoreEnv, resultState] at h <;> rw [← h]
  refine ⟨?_, fun f ss st => rfl, ?_⟩
  · intro f ss st st1 h
    match f with
    | 0 => exact absurd h (by simp [execStmt, resultState])
    | g + 1 => exact key st.env _ st1 h
  · intro prev r
    cases r <;> rfl

/-- C9 (witness): the theorem at a concrete block whose body raises the
break signal — the resulting state has the original (top-level) current
frame back. -/
theorem c9_block_witness :
    resultState (execStmt 3 (.block [.breakS]) stInit)
      = some { stInit with frames := [⟨[], none⟩] }
  ∧ ({ stInit with frames := [⟨[], none⟩] } : St).env = stInit.env :=
  ⟨rfl, c9_block_restores_frame_on_every_exit.1 3 [.breakS] stInit
      { stInit with frames := [⟨[], none⟩] } rfl⟩

/-- C10: a `var` statement without an initializer binds the name to the
distinct UNINITIALIZED sentinel (not nil) — in the current frame when
one exists, else in the global table; reading a name bound to the
sentinel raises the LoxRuntimeError "Uninitialized variable '<name>'."
both through the global table and through the name-walking
`Environment.get`; and once a non-sentinel value is assigned, the read
succeeds with that value. -/
theorem c10_uninitialized_sentinel :
    Val.uninit ≠ Val.nil
  ∧ (∀ f st name, st.env = none →
        execStmt (f + 1) (.var name none) st = .ok () (globalDefine st name .uninit))
  ∧ (∀ f st eid fr name, st.env = some eid → st.frames.get? eid = some fr →
        execStmt (f + 1) (.var name none) st
          = .ok () { st with
              frames := st.frames.set eid { fr with values := aset fr.values name .uninit } })
  ∧ (∀ st name, aget st.globals name = some .uninit →
        globalGet st name = .err ("Uninitialized variable '" ++ name ++ "'.") st)
  ∧ (∀ f st eid fr name, st.frames.get? eid = some fr →
        aget fr.values name = some .uninit →
        envGetF (f + 1) st eid name = .err ("Uninitialized variable '" ++ name ++ "'.") st)
  ∧ (∀ st name v st1, v ≠ .uninit → globalAssign st name v = .ok () st1 →
        globalGet st1 name = .ok v st1)
  ∧ (∀ st name v, v ≠ .uninit →
        globalGet (globalDefine st name v) name = .ok v (globalDefine st name v)) := by
  refine ⟨by simp, ?_, ?_, ?_, ?_, ?_, ?_⟩
  · intro f st name h
    simp only [execStmt, Res.andThen]
    rw [h]
  · intro f st eid fr name henv hfr
    simp only [execStmt, Res.andThen]
    rw [henv]
    simp only [envDefine]
    rw [hfr]
    simp [henv]
  · intro st name h
    unfold globalGet
    rw [h]
    simp
  · intro f st eid fr name hfr hv
    unfold envGetF
    rw [hfr]
    simp [hv]
  · intro st name v st1 hv h
    unfold globalAssign at h
    cases hg : aget st.globals name with
    | none => rw [hg] at h; exact absurd h (by simp)
    | some w =>
        rw [hg] at h
        simp only [Res.ok.injEq, true_and] at h
        rw [← h]
        unfold globalGet
        simp [aget_aset_self, hv]
  · intro st name v hv
    unfold globalGet globalDefine
    simp [aget_aset_self, hv]

/-- C10 (witness): the sentinel at concrete inputs — `var a;` at top
level stores the sentinel in the global table, reading it errors with
the exact message, and after storing 5 the read yields 5. -/
theorem c10_uninitialized_witness :
    execStmt 1 (.var "a" none) stInit = .ok () (globalDefine stInit "a" .uninit)
  ∧ globalGet (globalDefine stInit "a" .uninit) "a"
      = .err "Uninitialized variable 'a'." (globalDefine stInit "a" .uninit)
  ∧ globalGet (globalDefine stInit "a" (.num 5)) "a"
      = .ok (.num 5) (globalDefine stInit "a" (.num 5)) :=
  ⟨c10_uninitialized_sentinel.2.1 0 stInit "a" rfl,
   c10_uninitialized_sentinel.2.2.2.1 (globalDefine stInit "a" .uninit) "a" rfl,
   c10_uninitialized_sentinel.2.2.2.2.2.2 stInit "a" (.num 5) (by simp)⟩
